import Mathlib

/-!
Shallow embedding of the cattus-aruco-generator service
(src/lambda.py and src/aruco_generator.py).

The service wraps an external symbology library (cv2.aruco) behind a
FastAPI application.  The repository code under src/ is modelled
faithfully: the `ArucoGenerator` class becomes an explicit state record,
its mutating method `set_dictionary` becomes a state-passing function,
the pydantic request models become validation predicates over request
records, and each endpoint body, including its try/except-Exception
wrapper, becomes a function from (generator state, request) to
(HTTP result, generator state).

The external library calls (cv2.aruco.generateImageMarker,
cv2.copyMakeBorder, PIL/base64 encoding) are not repository code; the
spec declares them black boxes with a stated contract (deterministic
identifier-to-pattern codebook; rasterization to a size-by-size grid with
an intrinsic border of border_bits cell widths; constant padding).  They
are modelled below by concrete deterministic Lean functions satisfying
exactly that contract.
-/

namespace CattusAruco

/-- The four predefined dictionary constants used by the source:
DICT_4X4_50, DICT_5X5_50, DICT_6X6_50, DICT_7X7_50 (each holds 50
symbols, ids 0 to 49). -/
inductive ArucoDict where
  | d4x4
  | d5x5
  | d6x6
  | d7x7
deriving DecidableEq, Repr

/-- Modelled from the spec: each dictionary variant defines a fixed
symbol grid resolution (4, 5, 6 or 7 cells per side). -/
def ArucoDict.gridSize : ArucoDict → Nat
  | .d4x4 => 4
  | .d5x5 => 5
  | .d6x6 => 6
  | .d7x7 => 7

/-- State of the ArucoGenerator class: its single instance attribute
aruco_dict, set in __init__ and overwritten by set_dictionary. -/
structure ArucoGenerator where
  aruco_dict : ArucoDict
deriving DecidableEq, Repr

/-- The __init__ method: the default dictionary is DICT_4X4_50. -/
def ArucoGenerator.init : ArucoGenerator := { aruco_dict := ArucoDict.d4x4 }

/-- A single-channel raster image: dimensions plus a pixel grid. -/
structure GrayImage where
  rows : Nat
  cols : Nat
  pixel : Nat → Nat → Nat

/-- Modelled from the spec: the symbology codebook of the external
library is a black box, a deterministic mapping from (variant,
identifier) to a square binary symbol pattern.  Any fixed deterministic
function meets that contract; this one is arbitrary but concrete. -/
def arucoBit (d : ArucoDict) (marker_id r c : Nat) : Bool :=
  (marker_id * (r + 2) + c * (d.gridSize + 1) + r) % 2 == 0

/-- Modelled from the spec: cv2.aruco.generateImageMarker rasterizes the
symbol for marker_id into a size-by-size grayscale image, inserting a
solid black border of border_bits symbol-cell widths around the active
pattern (the border intrinsic to the symbol encoding, distinct from the
outer margin). -/
def generateImageMarker (d : ArucoDict) (marker_id size border_bits : Nat) :
    GrayImage :=
  let cells := d.gridSize + 2 * border_bits
  { rows := size
    cols := size
    pixel := fun r c =>
      let cr := r * cells / size
      let cc := c * cells / size
      if cr < border_bits ∨ cc < border_bits ∨
          cells ≤ cr + border_bits ∨ cells ≤ cc + border_bits then 0
      else if arucoBit d marker_id (cr - border_bits) (cc - border_bits)
      then 255 else 0 }

/-- Modelled from the spec: cv2.copyMakeBorder with BORDER_CONSTANT pads
the image with m pixels of the constant value on all four sides. -/
def copyMakeBorder (img : GrayImage) (m value : Nat) : GrayImage :=
  { rows := img.rows + 2 * m
    cols := img.cols + 2 * m
    pixel := fun r c =>
      if r < m ∨ c < m ∨ m + img.rows ≤ r ∨ m + img.cols ≤ c then value
      else img.pixel (r - m) (c - m) }

/-- ArucoGenerator.generate_single_marker: render the marker at the
requested size with the requested intrinsic border, then, when
margin > 0, pad with a constant white (255) margin on all sides. -/
def ArucoGenerator.generate_single_marker (g : ArucoGenerator)
    (marker_id : Nat) (size : Nat) (margin : Nat) (border_bits : Nat) :
    GrayImage :=
  let marker_img := generateImageMarker g.aruco_dict marker_id size border_bits
  if margin > 0 then copyMakeBorder marker_img margin 255 else marker_img

/-- The dict_mapping literal of set_dictionary: recognized dictionary
strings and the constants they map to. -/
def dict_mapping : List (String × ArucoDict) :=
  [("4x4", ArucoDict.d4x4), ("5x5", ArucoDict.d5x5),
   ("6x6", ArucoDict.d6x6), ("7x7", ArucoDict.d7x7)]

/-- ArucoGenerator.set_dictionary: when dict_type is a key of
dict_mapping, overwrite self.aruco_dict with the mapped dictionary and
return True; otherwise return False and leave the state untouched. -/
def ArucoGenerator.set_dictionary (g : ArucoGenerator) (dict_type : String) :
    Bool × ArucoGenerator :=
  match dict_mapping.lookup dict_type with
  | some d => (true, { aruco_dict := d })
  | none => (false, g)

/-- Modelled from the spec: PIL PNG serialization followed by base64 text
encoding (image_to_base64) is an external deterministic codec whose
round trip preserves the pixel grid; the encoded payload is modelled by
the pixel grid it encodes. -/
def image_to_base64 (image : GrayImage) : GrayImage := image

/-- The field values of a MarkerRequest (the pydantic model of the POST
route; the GET route declares the same fields with the same bounds as
Query parameters).  Integer fields are Nat: every pydantic bound below
has a lower end of at least 0. -/
structure MarkerRequest where
  marker_id : Nat
  size : Nat
  margin : Nat
  border_bits : Nat
  dictionary : String
deriving Repr

/-- Pydantic validation of MarkerRequest: marker_id in 0..49, size in
50..1000, margin in 0..100, border_bits in 1..3; the dictionary field is
a plain str with no constraint.  Construction succeeds exactly when this
returns true; otherwise FastAPI answers with a 422 validation error. -/
def MarkerRequest.valid (r : MarkerRequest) : Bool :=
  decide (r.marker_id ≤ 49) && decide (50 ≤ r.size) && decide (r.size ≤ 1000)
    && decide (r.margin ≤ 100)
    && decide (1 ≤ r.border_bits) && decide (r.border_bits ≤ 3)

/-- Field default of border_bits in MarkerRequest and
MultipleMarkersRequest: Field(1, ge=1, le=3). -/
def border_bits_default : Nat := 1

/-- The field values of a MultipleMarkersRequest (the pydantic model of
the POST /generate-multiple route). -/
structure MultipleMarkersRequest where
  start_id : Nat
  count : Nat
  size : Nat
  margin : Nat
  border_bits : Nat
  dictionary : String
deriving Repr

/-- Pydantic validation of MultipleMarkersRequest: start_id in 0..49,
count in 1..20, size in 50..1000, margin in 0..100, border_bits in 1..3;
the dictionary field is unconstrained. -/
def MultipleMarkersRequest.valid (r : MultipleMarkersRequest) : Bool :=
  decide (r.start_id ≤ 49) && decide (1 ≤ r.count) && decide (r.count ≤ 20)
    && decide (50 ≤ r.size) && decide (r.size ≤ 1000) && decide (r.margin ≤ 100)
    && decide (1 ≤ r.border_bits) && decide (r.border_bits ≤ 3)

/-- The MarkerResponse model returned by the single-generation routes. -/
structure MarkerResponse where
  success : Bool
  marker_id : Nat
  image_base64 : GrayImage
  size : Nat
  margin : Nat
  dictionary : String
  message : String

/-- One entry of the markers list of a MultipleMarkersResponse. -/
structure BatchMarker where
  marker_id : Nat
  image_base64 : GrayImage
  size : Nat
  margin : Nat

/-- The MultipleMarkersResponse model of the batch route. -/
structure MultipleMarkersResponse where
  success : Bool
  markers : List BatchMarker
  total_generated : Nat
  message : String

/-- An HTTP outcome: a successful JSON body, or an error response
carrying a status code and a detail string (the shape FastAPI gives a
raised HTTPException or a validation failure). -/
inductive HttpResult (α : Type) where
  | ok : α → HttpResult α
  | err : Nat → String → HttpResult α

/-- Detail string of the HTTPException(status_code=400) raised when
set_dictionary rejects the requested dictionary string. -/
def badDictDetail (dict_type : String) : String :=
  "Dicionario nao suportado: " ++ dict_type

/-- Detail string built by the blanket except-Exception handler: the
exception is stringified (an HTTPException prints as status: detail) and
prefixed with the endpoint context message. -/
def serverErrorDetail (ctx : String) (e : Nat × String) : String :=
  ctx ++ toString e.1 ++ ": " ++ e.2

/-- Body of the try block of the POST /generate endpoint: resolve the
dictionary (raising 400 when unrecognized), render, encode, and build
the MarkerResponse.  A raised HTTPException is the error component. -/
def generate_single_marker_body (g : ArucoGenerator) (request : MarkerRequest) :
    Except (Nat × String) MarkerResponse × ArucoGenerator :=
  let sd := g.set_dictionary request.dictionary
  if sd.1 then
    let marker_image := sd.2.generate_single_marker request.marker_id
      request.size request.margin request.border_bits
    (Except.ok
      { success := true
        marker_id := request.marker_id
        image_base64 := image_to_base64 marker_image
        size := request.size
        margin := request.margin
        dictionary := request.dictionary
        message := "Etiqueta gerada com sucesso" }, sd.2)
  else
    (Except.error (400, badDictDetail request.dictionary), sd.2)

/-- The POST /generate endpoint: the whole body sits inside
try/except Exception, so the HTTPException(400) raised for a bad
dictionary is itself caught and re-raised as HTTPException(500) with the
stringified original exception in the detail. -/
def generate_single_marker_endpoint (g : ArucoGenerator)
    (request : MarkerRequest) : HttpResult MarkerResponse × ArucoGenerator :=
  match generate_single_marker_body g request with
  | (Except.ok resp, g1) => (HttpResult.ok resp, g1)
  | (Except.error e, g1) =>
      (HttpResult.err 500 (serverErrorDetail "Erro ao gerar etiqueta: " e), g1)

/-- The full single-generation operation as a client observes it:
FastAPI/pydantic field validation first (422 on failure, the endpoint
body never runs), then the endpoint.  Models POST /generate; the GET
/generate route has the identical bounds and body. -/
def generate_single_operation (g : ArucoGenerator) (r : MarkerRequest) :
    HttpResult MarkerResponse × ArucoGenerator :=
  if r.valid then generate_single_marker_endpoint g r
  else (HttpResult.err 422 "Unprocessable Entity", g)

/-- The GET /generate route (generate_marker_get): its Query bounds and
handler body coincide with the POST route, so the operation is the
same function of (state, request). -/
def generate_marker_get (g : ArucoGenerator) (r : MarkerRequest) :
    HttpResult MarkerResponse × ArucoGenerator :=
  generate_single_operation g r

/-- The marker dict appended by one productive iteration of the batch
loop, for loop index i (marker_id = start_id + i): the rendered and
encoded image together with the echoed size and margin. -/
def batchItem (g : ArucoGenerator) (request : MultipleMarkersRequest)
    (i : Nat) : BatchMarker :=
  { marker_id := request.start_id + i
    image_base64 := image_to_base64 (g.generate_single_marker
      (request.start_id + i) request.size request.margin request.border_bits)
    size := request.size
    margin := request.margin }

/-- One iteration of the batch loop: skip ids above 49 (continue),
otherwise render, encode, append the marker dict and increment the
generated counter. -/
def batchStep (g : ArucoGenerator) (request : MultipleMarkersRequest)
    (acc : List BatchMarker × Nat) (i : Nat) : List BatchMarker × Nat :=
  if request.start_id + i > 49 then acc
  else (acc.1 ++ [batchItem g request i], acc.2 + 1)

/-- Body of the try block of POST /generate-multiple: resolve the
dictionary (raising 400 when unrecognized), then run the loop
for i in range(count) accumulating markers and generated_count. -/
def generate_multiple_markers_body (g : ArucoGenerator)
    (request : MultipleMarkersRequest) :
    Except (Nat × String) MultipleMarkersResponse × ArucoGenerator :=
  let sd := g.set_dictionary request.dictionary
  if sd.1 then
    let acc := (List.range request.count).foldl (batchStep sd.2 request) ([], 0)
    (Except.ok
      { success := true
        markers := acc.1
        total_generated := acc.2
        message := "Etiquetas geradas com sucesso" }, sd.2)
  else
    (Except.error (400, badDictDetail request.dictionary), sd.2)

/-- The POST /generate-multiple endpoint with its try/except Exception
wrapper: as in the single route, the raised 400 is converted to 500. -/
def generate_multiple_markers_endpoint (g : ArucoGenerator)
    (request : MultipleMarkersRequest) :
    HttpResult MultipleMarkersResponse × ArucoGenerator :=
  match generate_multiple_markers_body g request with
  | (Except.ok resp, g1) => (HttpResult.ok resp, g1)
  | (Except.error e, g1) =>
      (HttpResult.err 500 (serverErrorDetail "Erro ao gerar etiquetas: " e), g1)

/-- The full batch operation as a client observes it: pydantic
validation (422 on failure), then the endpoint. -/
def generate_multiple_operation (g : ArucoGenerator)
    (r : MultipleMarkersRequest) :
    HttpResult MultipleMarkersResponse × ArucoGenerator :=
  if r.valid then generate_multiple_markers_endpoint g r
  else (HttpResult.err 422 "Unprocessable Entity", g)

/-- Observable control data of a batch outcome: success flag, the
total_generated counter, and the identifiers of the returned markers in
list order (none when the outcome is an error response). -/
def batchView (h : HttpResult MultipleMarkersResponse) :
    Option (Bool × Nat × List Nat) :=
  match h with
  | HttpResult.ok resp =>
      some (resp.success, resp.total_generated,
        resp.markers.map (fun b => b.marker_id))
  | HttpResult.err _ _ => none

/-- Length data of a batch outcome: the total_generated counter next to
the length of the markers list. -/
def batchLens (h : HttpResult MultipleMarkersResponse) : Option (Nat × Nat) :=
  match h with
  | HttpResult.ok resp => some (resp.total_generated, resp.markers.length)
  | HttpResult.err _ _ => none

/-- Concrete single request with the unrecognized dictionary 9x9 and
every other field at its default. -/
def reqDict9x9 : MarkerRequest :=
  { marker_id := 0, size := 200, margin := 10, border_bits := 1,
    dictionary := "9x9" }

/-- Concrete batch request with the unrecognized dictionary 9x9 and
every other field at its default. -/
def mreqDict9x9 : MultipleMarkersRequest :=
  { start_id := 0, count := 5, size := 200, margin := 10, border_bits := 1,
    dictionary := "9x9" }

/-- Concrete batch request with start_id 60 and count 5. -/
def mreqStart60 : MultipleMarkersRequest :=
  { start_id := 60, count := 5, size := 200, margin := 10, border_bits := 1,
    dictionary := "4x4" }

/-- Concrete single request with border_bits 4. -/
def reqBorder4 : MarkerRequest :=
  { marker_id := 0, size := 200, margin := 10, border_bits := 4,
    dictionary := "4x4" }

/-- Concrete batch request with border_bits 4. -/
def mreqBorder4 : MultipleMarkersRequest :=
  { start_id := 0, count := 5, size := 200, margin := 10, border_bits := 4,
    dictionary := "4x4" }

/-- Concrete single request selecting the 5x5 dictionary. -/
def reqDict5x5 : MarkerRequest :=
  { marker_id := 0, size := 200, margin := 10, border_bits := 1,
    dictionary := "5x5" }

/-- Concrete valid single request with every field at its default. -/
def reqDefault : MarkerRequest :=
  { marker_id := 0, size := 200, margin := 10, border_bits := 1,
    dictionary := "4x4" }

/-- Concrete single request with marker_id 50. -/
def reqId50 : MarkerRequest :=
  { marker_id := 50, size := 200, margin := 10, border_bits := 1,
    dictionary := "4x4" }

/-- Concrete batch request with start_id 45 and count 10. -/
def mreqStart45 : MultipleMarkersRequest :=
  { start_id := 45, count := 10, size := 200, margin := 10, border_bits := 1,
    dictionary := "4x4" }

/-- Concrete batch request with start_id 48 and count 20. -/
def mreqStart48 : MultipleMarkersRequest :=
  { start_id := 48, count := 20, size := 200, margin := 10, border_bits := 1,
    dictionary := "4x4" }

/-! Helper lemmas shared by the claim theorems. -/

/-- A MultipleMarkersRequest with start_id at least 50 fails pydantic
validation. -/
lemma multiple_valid_false_of_start_ge_50 (r : MultipleMarkersRequest)
    (h : 50 ≤ r.start_id) : r.valid = false := by
  have h1 : decide (r.start_id ≤ 49) = false := decide_eq_false (by omega)
  simp [MultipleMarkersRequest.valid, h1]

/-- A MarkerRequest with marker_id at least 50 fails pydantic
validation. -/
lemma single_valid_false_of_id_ge_50 (r : MarkerRequest)
    (h : 50 ≤ r.marker_id) : r.valid = false := by
  have h1 : decide (r.marker_id ≤ 49) = false := decide_eq_false (by omega)
  simp [MarkerRequest.valid, h1]

/-- Characterization of the batch loop fold: over any index list it
appends, in order, the items of the indices whose marker id stays at
most 49, and increments the counter once per appended item. -/
lemma foldl_batchStep (g : ArucoGenerator) (r : MultipleMarkersRequest)
    (l : List Nat) :
    ∀ acc : List BatchMarker × Nat,
      l.foldl (batchStep g r) acc
        = (acc.1 ++ (l.filter (fun i => decide (r.start_id + i ≤ 49))).map
              (batchItem g r),
           acc.2 + (l.filter (fun i => decide (r.start_id + i ≤ 49))).length) := by
  induction l with
  | nil => intro acc; simp
  | cons a t ih =>
    intro acc
    rw [List.foldl_cons, ih]
    by_cases h : r.start_id + a > 49
    · have hd : decide (r.start_id + a ≤ 49) = false := decide_eq_false (by omega)
      simp [batchStep, h, hd, List.filter_cons]
    · have hd : decide (r.start_id + a ≤ 49) = true := decide_eq_true (by omega)
      simp only [batchStep, if_neg h, List.filter_cons, hd, if_true,
        List.map_cons, List.length_cons]
      refine Prod.ext ?_ ?_
      · simp [List.append_assoc]
      · simp; omega

/-- Filtering range n by a strict upper bound m keeps exactly
range (min n m). -/
lemma range_filter_lt (n m : Nat) :
    (List.range n).filter (fun i => decide (i < m)) = List.range (min n m) := by
  induction n with
  | zero => simp
  | succ n ih =>
    rw [List.range_succ, List.filter_append, ih]
    by_cases h : n < m
    · have h1 : min (n + 1) m = min n m + 1 := by omega
      have h2 : decide (n < m) = true := decide_eq_true h
      simp [h1, h2, List.range_succ, Nat.min_eq_left (by omega : n ≤ m)]
    · have h1 : min (n + 1) m = min n m := by omega
      have h2 : decide (n < m) = false := decide_eq_false h
      simp [h1, h2]

/-- The index filter of the batch loop over range n keeps exactly the
first min n (50 - start) indices. -/
lemma range_filter_le_49 (n s : Nat) :
    (List.range n).filter (fun i => decide (s + i ≤ 49))
      = List.range (min n (50 - s)) := by
  have hfun : (fun i => decide (s + i ≤ 49)) = (fun i => decide (i < 50 - s)) :=
    funext fun i => by
      rcases Nat.lt_or_ge i (50 - s) with h | h
      · rw [decide_eq_true h, decide_eq_true (by omega)]
      · rw [decide_eq_false (by omega), decide_eq_false (by omega)]
  rw [hfun, range_filter_lt]

/-! Claim theorems. -/

/-- C1: the spec claims an unrecognized dictionary string yields a
client error (4xx) for both single and batch operations.  The code
raises HTTPException(400) for this case, but the raise sits inside the
try block whose blanket except-Exception clause catches it and re-raises
HTTPException(500), so the client actually receives a 500 server error
(no rendering is performed, as claimed).  This theorem evaluates both
operations at dictionary 9x9 and shows the 500 status. -/
theorem c1_unrecognized_dictionary_yields_500 :
    (generate_single_operation ArucoGenerator.init reqDict9x9).1
      = HttpResult.err 500
          (serverErrorDetail "Erro ao gerar etiqueta: " (400, badDictDetail "9x9"))
    ∧ (generate_multiple_operation ArucoGenerator.init mreqDict9x9).1
      = HttpResult.err 500
          (serverErrorDetail "Erro ao gerar etiquetas: " (400, badDictDetail "9x9")) :=
  ⟨rfl, rfl⟩

/-- C2 counterexample: a batch request with start_id 60 and count 5 is
not accepted with total_generated 0; pydantic validation (start_id at
most 49) rejects it, so the client receives a 422 error response and the
endpoint body never runs. -/
theorem c2_counterexample_start_60_rejected :
    (generate_multiple_operation ArucoGenerator.init mreqStart60).1
      = HttpResult.err 422 "Unprocessable Entity" := rfl

/-- C2 amended: every batch request whose start_id is at least 50 is
rejected by field validation with a client error (422), so the zero
result success response the spec describes is never produced. -/
theorem c2_amended_out_of_range_start_rejected (g : ArucoGenerator)
    (r : MultipleMarkersRequest) (h : 50 ≤ r.start_id) :
    (generate_multiple_operation g r).1
      = HttpResult.err 422 "Unprocessable Entity" := by
  have hv := multiple_valid_false_of_start_ge_50 r h
  simp [generate_multiple_operation, hv]

/-- C2 witness: the amended statement instantiated at the concrete
request with start_id 60 and count 5. -/
theorem c2_amended_witness :
    50 ≤ mreqStart60.start_id
    ∧ (generate_multiple_operation ArucoGenerator.init mreqStart60).1
        = HttpResult.err 422 "Unprocessable Entity" :=
  ⟨by decide,
   c2_amended_out_of_range_start_rejected ArucoGenerator.init mreqStart60
     (by decide)⟩

/-- C3 counterexample: the spec claims border_bits 4 is accepted, but
both the single and the batch request models bound border_bits by
Field(1, ge=1, le=3), so border_bits 4 is rejected with a 422 validation
error. -/
theorem c3_counterexample_border_bits_4_rejected :
    (generate_single_operation ArucoGenerator.init reqBorder4).1
      = HttpResult.err 422 "Unprocessable Entity"
    ∧ (generate_multiple_operation ArucoGenerator.init mreqBorder4).1
      = HttpResult.err 422 "Unprocessable Entity" :=
  ⟨rfl, rfl⟩

/-- C3 amended: request validation accepts border_bits in the range 1 to
3 inclusive (default 1) and rejects values outside that range, for both
single and batch operations: with every other field in range, validation
succeeds exactly when 1 ≤ border_bits ≤ 3. -/
theorem c3_amended_border_bits_range (r : MarkerRequest)
    (m : MultipleMarkersRequest)
    (hr1 : r.marker_id ≤ 49) (hr2 : 50 ≤ r.size) (hr3 : r.size ≤ 1000)
    (hr4 : r.margin ≤ 100)
    (hm1 : m.start_id ≤ 49) (hm2 : 1 ≤ m.count) (hm3 : m.count ≤ 20)
    (hm4 : 50 ≤ m.size) (hm5 : m.size ≤ 1000) (hm6 : m.margin ≤ 100) :
    border_bits_default = 1
    ∧ (r.valid = true ↔ 1 ≤ r.border_bits ∧ r.border_bits ≤ 3)
    ∧ (m.valid = true ↔ 1 ≤ m.border_bits ∧ m.border_bits ≤ 3) := by
  refine ⟨rfl, ?_, ?_⟩
  · simp only [MarkerRequest.valid, Bool.and_eq_true, decide_eq_true_eq]
    omega
  · simp only [MultipleMarkersRequest.valid, Bool.and_eq_true, decide_eq_true_eq]
    omega

/-- C3 witness: the amended statement instantiated at the default single
request and a concrete batch request, with every hypothesis discharged
by evaluation. -/
theorem c3_amended_witness :
    (reqDefault.marker_id ≤ 49 ∧ 50 ≤ reqDefault.size ∧ reqDefault.size ≤ 1000
      ∧ reqDefault.margin ≤ 100
      ∧ mreqStart45.start_id ≤ 49 ∧ 1 ≤ mreqStart45.count
      ∧ mreqStart45.count ≤ 20 ∧ 50 ≤ mreqStart45.size
      ∧ mreqStart45.size ≤ 1000 ∧ mreqStart45.margin ≤ 100)
    ∧ (border_bits_default = 1
        ∧ (reqDefault.valid = true ↔
            1 ≤ reqDefault.border_bits ∧ reqDefault.border_bits ≤ 3)
        ∧ (mreqStart45.valid = true ↔
            1 ≤ mreqStart45.border_bits ∧ mreqStart45.border_bits ≤ 3)) :=
  ⟨by decide,
   c3_amended_border_bits_range reqDefault mreqStart45
     (by decide) (by decide) (by decide) (by decide) (by decide) (by decide)
     (by decide) (by decide) (by decide) (by decide)⟩

/-- C4 counterexample: dictionary selection is not request scoped in the
code; it mutates the shared global generator.  Processing a single
request that selects 5x5 leaves the global generator state changed from
its initial value. -/
theorem c4_counterexample_request_mutates_shared_state :
    (generate_single_operation ArucoGenerator.init reqDict5x5).2
      ≠ ArucoGenerator.init := by decide

/-- C4 amended: the code does write shared mutable state (the global
generator aruco_dict field is overwritten per request), but the response
of each operation is a pure function of the request alone: it does not
depend on the generator state left by earlier requests, because every
request resolves its dictionary before rendering. -/
theorem c4_amended_response_independent_of_prior_state
    (g1 g2 : ArucoGenerator) (r : MarkerRequest)
    (m : MultipleMarkersRequest) :
    (generate_single_operation g1 r).1 = (generate_single_operation g2 r).1
    ∧ (generate_multiple_operation g1 m).1
        = (generate_multiple_operation g2 m).1 := by
  constructor
  · by_cases hv : r.valid
    · simp only [generate_single_operation, hv, if_true,
        generate_single_marker_endpoint, generate_single_marker_body,
        ArucoGenerator.set_dictionary]
      cases hl : dict_mapping.lookup r.dictionary <;> simp [hl]
    · simp [generate_single_operation, hv]
  · by_cases hv : m.valid
    · simp only [generate_multiple_operation, hv, if_true,
        generate_multiple_markers_endpoint, generate_multiple_markers_body,
        ArucoGenerator.set_dictionary]
      cases hl : dict_mapping.lookup m.dictionary <;> simp [hl]
    · simp [generate_multiple_operation, hv]

/-- C5: for every valid input the rendered image is square with both
dimensions equal to size + 2 * margin; when margin is 0 the padding
branch is skipped and the dimensions equal size (the conclusion then
reads size + 2 * 0). -/
theorem c5_output_dimensions (g : ArucoGenerator)
    (marker_id size margin border_bits : Nat)
    (_h1 : marker_id ≤ 49) (_h2 : 50 ≤ size) (_h3 : size ≤ 1000)
    (_h4 : margin ≤ 100) (_h5 : 1 ≤ border_bits) (_h6 : border_bits ≤ 3) :
    (g.generate_single_marker marker_id size margin border_bits).rows
      = size + 2 * margin
    ∧ (g.generate_single_marker marker_id size margin border_bits).cols
      = size + 2 * margin := by
  unfold ArucoGenerator.generate_single_marker copyMakeBorder
    generateImageMarker
  by_cases hm : margin > 0
  · simp [hm]
  · simp [hm]; omega

/-- C5 witness: the dimension statement instantiated at marker 3, size
200, margin 0 (the no padding case) and border_bits 1. -/
theorem c5_output_dimensions_witness :
    ((3 : Nat) ≤ 49 ∧ 50 ≤ (200 : Nat) ∧ (200 : Nat) ≤ 1000
      ∧ (0 : Nat) ≤ 100 ∧ (1 : Nat) ≤ 1 ∧ (1 : Nat) ≤ 3)
    ∧ ((ArucoGenerator.init.generate_single_marker 3 200 0 1).rows
          = 200 + 2 * 0
        ∧ (ArucoGenerator.init.generate_single_marker 3 200 0 1).cols
          = 200 + 2 * 0) :=
  ⟨by decide,
   c5_output_dimensions ArucoGenerator.init 3 200 0 1
     (by decide) (by decide) (by decide) (by decide) (by decide) (by decide)⟩

/-- C6: the batch request with start_id 45 and count 10 returns a
success response with total_generated 5 and exactly the markers with
identifiers 45 through 49 in order; the out of range tail (50 to 54) is
silently skipped, with no error. -/
theorem c6_batch_start_45_count_10 :
    batchView (generate_multiple_operation ArucoGenerator.init mreqStart45).1
      = some (true, 5, [45, 46, 47, 48, 49]) := rfl

/-- C7: every single generation request whose marker identifier is at
least 50 is rejected by field validation with a client error (422), on
the POST route and on the GET route alike; an error response carries no
rendered image. -/
theorem c7_identifier_ge_50_client_error (g : ArucoGenerator)
    (r : MarkerRequest) (h : 50 ≤ r.marker_id) :
    (generate_single_operation g r).1
      = HttpResult.err 422 "Unprocessable Entity"
    ∧ (generate_marker_get g r).1
      = HttpResult.err 422 "Unprocessable Entity" := by
  have hv := single_valid_false_of_id_ge_50 r h
  constructor <;> simp [generate_marker_get, generate_single_operation, hv]

/-- C7 witness: the rejection statement instantiated at marker_id 50. -/
theorem c7_identifier_ge_50_witness :
    50 ≤ reqId50.marker_id
    ∧ ((generate_single_operation ArucoGenerator.init reqId50).1
          = HttpResult.err 422 "Unprocessable Entity"
        ∧ (generate_marker_get ArucoGenerator.init reqId50).1
          = HttpResult.err 422 "Unprocessable Entity") :=
  ⟨by decide,
   c7_identifier_ge_50_client_error ArucoGenerator.init reqId50 (by decide)⟩

/-- C8: the renderer pipeline is deterministic: invoking the single
generation operation twice with the identical valid request, the second
invocation starting from whatever generator state the first one left,
produces equal responses, and in particular byte identical image
payloads (the image_base64 field is part of the response). -/
theorem c8_identical_requests_identical_responses (g : ArucoGenerator)
    (r : MarkerRequest) (h : r.valid = true) :
    (generate_single_operation g r).1
      = (generate_single_operation
          (generate_single_operation g r).2 r).1 := by
  simp only [generate_single_operation, h, if_true,
    generate_single_marker_endpoint, generate_single_marker_body,
    ArucoGenerator.set_dictionary]
  cases hl : dict_mapping.lookup r.dictionary <;> simp [hl]

/-- C8 witness: determinism instantiated at the default valid request. -/
theorem c8_determinism_witness :
    reqDefault.valid = true
    ∧ (generate_single_operation ArucoGenerator.init reqDefault).1
        = (generate_single_operation
            (generate_single_operation ArucoGenerator.init reqDefault).2
            reqDefault).1 :=
  ⟨by decide,
   c8_identical_requests_identical_responses ArucoGenerator.init reqDefault
     (by decide)⟩

/-- C9: set_dictionary returns True exactly for the four recognized
dictionary strings, and when it returns False the generator state is
left unchanged. -/
theorem c9_set_dictionary_contract (g : ArucoGenerator) (s : String) :
    ((g.set_dictionary s).1 = true ↔
      s = "4x4" ∨ s = "5x5" ∨ s = "6x6" ∨ s = "7x7")
    ∧ ((g.set_dictionary s).1 = false → (g.set_dictionary s).2 = g) := by
  by_cases h1 : s = "4x4"
  · subst h1
    have hs : g.set_dictionary "4x4" = (true, { aruco_dict := ArucoDict.d4x4 }) := rfl
    rw [hs]; simp
  by_cases h2 : s = "5x5"
  · subst h2
    have hs : g.set_dictionary "5x5" = (true, { aruco_dict := ArucoDict.d5x5 }) := rfl
    rw [hs]; simp
  by_cases h3 : s = "6x6"
  · subst h3
    have hs : g.set_dictionary "6x6" = (true, { aruco_dict := ArucoDict.d6x6 }) := rfl
    rw [hs]; simp
  by_cases h4 : s = "7x7"
  · subst h4
    have hs : g.set_dictionary "7x7" = (true, { aruco_dict := ArucoDict.d7x7 }) := rfl
    rw [hs]; simp
  have e1 : (s == "4x4") = false := beq_eq_false_iff_ne.mpr h1
  have e2 : (s == "5x5") = false := beq_eq_false_iff_ne.mpr h2
  have e3 : (s == "6x6") = false := beq_eq_false_iff_ne.mpr h3
  have e4 : (s == "7x7") = false := beq_eq_false_iff_ne.mpr h4
  have hs : g.set_dictionary s = (false, g) := by
    unfold ArucoGenerator.set_dictionary dict_mapping
    simp [List.lookup, e1, e2, e3, e4]
  rw [hs]
  simp [h1, h2, h3, h4]

/-- C9 witness: the contract instantiated at the initial generator and
the unrecognized string 9x9. -/
theorem c9_set_dictionary_witness :
    ((ArucoGenerator.init.set_dictionary "9x9").1 = true ↔
      "9x9" = "4x4" ∨ "9x9" = "5x5" ∨ "9x9" = "6x6" ∨ "9x9" = "7x7")
    ∧ ((ArucoGenerator.init.set_dictionary "9x9").1 = false →
        (ArucoGenerator.init.set_dictionary "9x9").2 = ArucoGenerator.init) :=
  c9_set_dictionary_contract ArucoGenerator.init "9x9"

/-- C10: for every batch request that passes validation (so start_id at
most 49 and count between 1 and 20) and carries a recognized dictionary,
the endpoint returns success with total_generated equal to
min count (50 - start_id), which also equals the length of the markers
list and is at least 1, and the markers carry the consecutive ascending
identifiers start_id, start_id + 1, ... (the list range' start_id k). -/
theorem c10_batch_invariants (g : ArucoGenerator)
    (r : MultipleMarkersRequest) (hv : r.valid = true)
    (hd : (dict_mapping.lookup r.dictionary).isSome = true) :
    batchView (generate_multiple_operation g r).1
      = some (true, min r.count (50 - r.start_id),
          List.range' r.start_id (min r.count (50 - r.start_id)))
    ∧ batchLens (generate_multiple_operation g r).1
      = some (min r.count (50 - r.start_id),
          min r.count (50 - r.start_id))
    ∧ 1 ≤ min r.count (50 - r.start_id) := by
  obtain ⟨d, hld⟩ := Option.isSome_iff_exists.mp hd
  have hset : g.set_dictionary r.dictionary = (true, { aruco_dict := d }) := by
    unfold ArucoGenerator.set_dictionary
    rw [hld]
  have hbounds : 1 ≤ r.count ∧ r.start_id ≤ 49 := by
    simp only [MultipleMarkersRequest.valid, Bool.and_eq_true,
      decide_eq_true_eq] at hv
    omega
  refine ⟨?_, ?_, ?_⟩
  · simp only [generate_multiple_operation, hv, if_true,
      generate_multiple_markers_endpoint, generate_multiple_markers_body,
      hset, batchView]
    rw [foldl_batchStep, range_filter_le_49]
    have hmap : ((List.range (min r.count (50 - r.start_id))).map
          (batchItem { aruco_dict := d } r)).map (fun b => b.marker_id)
        = List.range' r.start_id (min r.count (50 - r.start_id)) := by
      rw [List.map_map, List.range'_eq_map_range]
      apply List.map_congr_left
      intro i _
      simp [batchItem]
    simp only [List.nil_append, Nat.zero_add, List.length_range, hmap]
  · simp only [generate_multiple_operation, hv, if_true,
      generate_multiple_markers_endpoint, generate_multiple_markers_body,
      hset, batchLens]
    rw [foldl_batchStep, range_filter_le_49]
    simp
  · omega

/-- C10 witness: the batch invariants instantiated at the concrete
request with start_id 48 and count 20 (so min count (50 - start_id)
is 2). -/
theorem c10_batch_invariants_witness :
    (mreqStart48.valid = true
      ∧ (dict_mapping.lookup mreqStart48.dictionary).isSome = true)
    ∧ (batchView
          (generate_multiple_operation ArucoGenerator.init mreqStart48).1
        = some (true, min mreqStart48.count (50 - mreqStart48.start_id),
            List.range' mreqStart48.start_id
              (min mreqStart48.count (50 - mreqStart48.start_id)))
      ∧ batchLens
          (generate_multiple_operation ArucoGenerator.init mreqStart48).1
        = some (min mreqStart48.count (50 - mreqStart48.start_id),
            min mreqStart48.count (50 - mreqStart48.start_id))
      ∧ 1 ≤ min mreqStart48.count (50 - mreqStart48.start_id)) :=
  ⟨⟨by decide, by decide⟩,
   c10_batch_invariants ArucoGenerator.init mreqStart48
     (by decide) (by decide)⟩

end CattusAruco
